import Mathlib

/-!
# Verification of the DeepSeek/OpenRouter LLM call adapter

Shallow embedding of `src/textgrad/engine/deepseek.py`
(`DeepSeekOpenRouterEngine`): construction, cached `generate`, the
tenacity retry decorator, and the requests HTTP layer it relies on.

The adapter's collaborators are embedded as follows.

* The cache store (`CachedEngine` from `.base`, not part of the sources)
  is modelled from the spec as a key-value mapping with `get`/`put`.
* The HTTP transport is modelled by a script (`List NetOutcome`): one
  entry per network call actually made, each entry saying whether the
  transport raised an exception or delivered a response.
* The tenacity decorator `retry(wait=wait_random_exponential(min=1, max=5),
  stop=stop_after_attempt(5))` is embedded from the tenacity sources:
  up to 5 attempts, any exception triggers a retry, and after the fifth
  failing attempt a `RetryError` wrapping the last attempt's exception is
  raised (the default `reraise=False` applies).  The wait before retry
  number n is `random.uniform(0, high n)` with
  `high n = clamp(2^(n-1), min, max)`.
* requests semantics embedded from the requests sources:
  `Response.__bool__` is `status_code < 400` (`Response.ok`), and
  `raise_for_status` raises `HTTPError` exactly for `400 <= status < 600`.
-/

namespace TextGrad

/-- JSON values, as returned by `response.json()`.  Only the shapes the
adapter touches are needed: objects, arrays and string leaves. -/
inductive RJson where
  | str (s : String)
  | arr (elems : List RJson)
  | obj (fields : List (String × RJson))

/-- First-match association lookup (Python `d[k]` hit, `diskcache` get). -/
def assocGet {α : Type} : List (String × α) → String → Option α
  | [], _ => none
  | kv :: rest, k => if kv.1 = k then some kv.2 else assocGet rest k

/-- Whether a key occurs in an association list. -/
def assocHasKey {α : Type} : List (String × α) → String → Bool
  | [], _ => false
  | kv :: rest, k => kv.1 = k || assocHasKey rest k

/-- Python `d[k] = v` / `diskcache` put: overwrite in place when the key is
present (keeping its position), append otherwise. -/
def assocSet {α : Type} (d : List (String × α)) (k : String) (v : α) :
    List (String × α) :=
  if assocHasKey d k then d.map (fun kv => if kv.1 = k then (k, v) else kv)
  else d ++ [(k, v)]

/-- One chat message of the request payload. -/
structure Message where
  role : String
  content : String
deriving DecidableEq, Repr

/-- A value stored in the request-payload dictionary: a string, a number
(the float/int literals are carried symbolically as rationals — they are
only ever copied, never computed with), or the messages list. -/
inductive PVal where
  | s (v : String)
  | n (v : Rat)
  | msgs (v : List Message)
deriving DecidableEq, Repr

/-- A Python dictionary with insertion order, as used for payloads. -/
abbrev PyDict := List (String × PVal)

/-- `{**a, **b}`: start from `a` and insert every binding of `b` in order. -/
def dictMerge (a b : PyDict) : PyDict :=
  b.foldl (fun d kv => assocSet d kv.1 kv.2) a

/-- Python `d.get(k, dflt)`. -/
def dictGetD (d : PyDict) (k : String) (dflt : PVal) : PVal :=
  (assocGet d k).getD dflt

/-- The on-disk cache store, modelled from the spec: a persistent
key-to-value mapping with `get(key) -> value option` and
`put(key, value)` (`CachedEngine._check_cache` / `_save_cache` live in
`.base`, outside the given sources). -/
abbrev Cache := List (String × RJson)

/-- Python exceptions the adapter's control flow can produce. -/
inductive PyErr where
  | valueError (msg : String)
  | runtimeError (msg : String)
  | keyError (key : String)
  | indexError (msg : String)
  | typeError (msg : String)
  | retryError (inner : PyErr)
deriving DecidableEq, Repr

/-- The Python class name of an exception. -/
def PyErr.typeName : PyErr → String
  | .valueError _ => "ValueError"
  | .runtimeError _ => "RuntimeError"
  | .keyError _ => "KeyError"
  | .indexError _ => "IndexError"
  | .typeError _ => "TypeError"
  | .retryError _ => "RetryError"

/-- `str(e)` for each modelled exception.  tenacity's
`RetryError.__str__` is `f"RetryError[{self.last_attempt}]"`, and the
`last_attempt` is a `concurrent.futures.Future` whose textual form shows
only its state and the wrapped exception's class name — never the wrapped
exception's own message.  (The hexadecimal object address appearing in
the real `Future` repr is elided as immaterial: it consists of hex digits
only.)  `str(KeyError)` is the repr of the key; its quoting is elided. -/
def PyErr.message : PyErr → String
  | .valueError m => m
  | .runtimeError m => m
  | .keyError k => k
  | .indexError m => m
  | .typeError m => m
  | .retryError inner =>
      "RetryError[<Future state=finished raised " ++ inner.typeName ++ ">]"

/-- An HTTP response as seen through requests: status code, reason
phrase, decoded JSON body (`response.json()`), raw body text
(`response.text`). -/
structure HTTPResponse where
  status : Nat
  reason : String
  body : RJson
  text : String

/-- `Response.ok` / `Response.__bool__` in requests: true exactly when
`status_code < 400`. -/
def respOk (r : HTTPResponse) : Bool := r.status < 400

/-- A `requests.exceptions.RequestException`: either an `HTTPError`
raised by `raise_for_status` (carrying the response, with the url the
request was sent to) or a transport-level error carrying no response. -/
inductive ReqException where
  | httpError (resp : HTTPResponse) (url : String)
  | connError (msg : String)

/-- `str(e)` for a `RequestException`.  For `HTTPError` raised by
`raise_for_status` this is
`f"{code} {Client/Server} Error: {reason} for url: {url}"`. -/
def ReqException.pyStr : ReqException → String
  | .httpError r url =>
      toString r.status ++
        (if r.status < 500 then " Client Error: " else " Server Error: ") ++
        r.reason ++ " for url: " ++ url
  | .connError m => m

/-- The response attribute of a `RequestException` (`None` when the
exception did not arise from a delivered response). -/
def ReqException.response : ReqException → Option HTTPResponse
  | .httpError r _ => some r
  | .connError _ => none

/-- The `except requests.exceptions.RequestException` block of
`generate`: `error_msg = f"DeepSeek API Error: {str(e)}"`, then the
status code and body text are appended only when
`hasattr(e, 'response') and e.response` holds — and `e.response` is
truthy exactly when the response is `ok`, i.e. `status < 400`. -/
def composeApiError (ex : ReqException) : String :=
  let base := "DeepSeek API Error: " ++ ex.pyStr
  match ex.response with
  | some r =>
      if respOk r then
        base ++ " | Status: " ++ toString r.status ++ " | Response: " ++ r.text
      else base
  | none => base

/-- Python subscripting `j[k]` with a string key: a hit or `KeyError` on
a dict, `TypeError` on a list or a string. -/
def RJson.getKey : RJson → String → Except PyErr RJson
  | .obj fields, k =>
      match assocGet fields k with
      | some v => .ok v
      | none => .error (.keyError k)
  | .arr _, _ => .error (.typeError "list indices must be integers or slices, not str")
  | .str _, _ => .error (.typeError "string indices must be integers")

/-- Python subscripting `j[0]`: element or `IndexError` on a list,
`KeyError` on a dict.  (Indexing into a string leaf, which in Python
would return a character, is not reachable through the adapter's parse
path on JSON bodies and is mapped to a `TypeError`.) -/
def RJson.getIdx : RJson → Nat → Except PyErr RJson
  | .arr xs, i =>
      match xs.get? i with
      | some v => .ok v
      | none => .error (.indexError "list index out of range")
  | .obj _, _ => .error (.keyError "0")
  | .str _, _ => .error (.typeError "string index must be sliced")

/-- `result["choices"][0]["message"]["content"]`. -/
def extractContent (result : RJson) : Except PyErr RJson := do
  let choices ← result.getKey "choices"
  let c0 ← choices.getIdx 0
  let m ← c0.getKey "message"
  m.getKey "content"

/-- The adapter's configuration after a successful `__init__`. -/
structure Engine where
  model_string : String
  system_prompt : String
  api_key : String
  base_url : String
  headers : List (String × String)
  default_params : PyDict

/-- Class attribute `DEFAULT_SYSTEM_PROMPT`. -/
def DEFAULT_SYSTEM_PROMPT : String :=
  "You are a helpful, creative, and smart assistant."

/-- Default `model_string` of `__init__`. -/
def defaultModelString : String := "deepseek/deepseek-chat-v3-0324:free"

/-- The `ValueError` message raised when no credential resolves. -/
def apiKeyErrorMsg : String :=
  "OpenRouter API key is required. Please provide api_key parameter or set OPENROUTER_API_KEY environment variable."

/-- Python `a or b` on an optional string `a`: `b` when `a` is `None` or
empty (falsy), `a` otherwise. -/
def pyOrOpt (a b : Option String) : Option String :=
  match a with
  | some s => if s = "" then b else some s
  | none => b

/-- Python `a or d` on an optional string against a string default. -/
def pyOrD (a : Option String) (d : String) : String :=
  match a with
  | some s => if s = "" then d else s
  | none => d

/-- The derived on-disk cache path:
`os.path.join(platformdirs.user_cache_dir("textgrad"), f"cache_deepseek_{model_string.replace('/', '_')}.db")`,
with the platform cache root abstracted as an input. -/
def cachePathOf (root model_string : String) : String :=
  root ++ "/cache_deepseek_" ++ (model_string.replace "/" "_") ++ ".db"

/-- Externally visible side effects of construction. -/
inductive InitEffect where
  | cacheOpen (path : String)
  | networkAccess (url : String)
deriving DecidableEq, Repr

/-- `__init__`.  `root` stands for `platformdirs.user_cache_dir("textgrad")`
and `envApiKey` for `os.getenv("OPENROUTER_API_KEY")`.  The call
`super().__init__(cache_path=cache_path)` is modelled from the spec:
`CachedEngine.__init__` (in `.base`, outside the given sources) opens or
creates the on-disk cache store at the derived path; it runs before the
credential check, exactly as in the source order.  Returns the effect
trace together with the constructed engine or the raised error. -/
def engineInit (root : String) (model_string : String) (system_prompt : String)
    (api_key : Option String) (site_url : Option String) (site_name : Option String)
    (envApiKey : Option String) (kwargs : PyDict) :
    List InitEffect × Except PyErr Engine :=
  let cache_path := cachePathOf root model_string
  let effects := [InitEffect.cacheOpen cache_path]
  match pyOrOpt api_key envApiKey with
  | none => (effects, .error (.valueError apiKeyErrorMsg))
  | some key =>
      if key = "" then (effects, .error (.valueError apiKeyErrorMsg))
      else
        (effects, .ok {
          model_string := model_string
          system_prompt := system_prompt
          api_key := key
          base_url := "https://openrouter.ai/api/v1"
          headers := [("Authorization", "Bearer " ++ key),
                      ("Content-Type", "application/json"),
                      ("HTTP-Referer", pyOrD site_url "https://example.com"),
                      ("X-Title", pyOrD site_name "TextGrad App")]
          default_params := [("temperature", dictGetD kwargs "temperature" (.n (7/10))),
                             ("max_tokens", dictGetD kwargs "max_tokens" (.n 1024)),
                             ("top_p", dictGetD kwargs "top_p" (.n 1))] })

/-- `sys_prompt = system_prompt or self.system_prompt`: the instance
default when the argument is `None` or the empty string (falsy). -/
def effectiveSysPrompt (e : Engine) (system_prompt : Option String) : String :=
  match system_prompt with
  | none => e.system_prompt
  | some s => if s = "" then e.system_prompt else s

/-- The request payload
`{"model": …, "messages": [system, user], **self.default_params, **kwargs}`:
a dict literal built by inserting each binding in order. -/
def buildPayload (e : Engine) (sys_prompt prompt : String) (kwargs : PyDict) :
    PyDict :=
  dictMerge
    (dictMerge
      [("model", .s e.model_string),
       ("messages", .msgs [⟨"system", sys_prompt⟩, ⟨"user", prompt⟩])]
      e.default_params)
    kwargs

/-- An observed outgoing HTTP request (`requests.post` arguments). -/
structure Request where
  method : String
  url : String
  headers : List (String × String)
  payload : PyDict
  timeout : Nat

/-- The one request a given attempt would send. -/
def mkRequest (e : Engine) (sys_prompt prompt : String) (kwargs : PyDict) :
    Request :=
  { method := "POST"
    url := e.base_url ++ "/chat/completions"
    headers := e.headers
    payload := buildPayload e sys_prompt prompt kwargs
    timeout := 30 }

/-- What the transport does on one network call: deliver a response, or
raise a transport-level `RequestException` with no response. -/
inductive NetOutcome where
  | response (r : HTTPResponse)
  | transportError (msg : String)

/-- Outcome of one execution of the decorated function's body: a result
together with the cache after the `_save_cache` call, or a raised
exception.  The body touches the cache on no other path, so an exception
leaves the cache as it was. -/
inductive AttemptOut where
  | ok (v : RJson) (cache : Cache)
  | err (e : PyErr)

/-- One execution of `generate`'s body (one tenacity attempt): cache
lookup, on a miss one network call consuming the head of the transport
script.  An exhausted script behaves as a transport error; the theorems
below always supply a long enough script.  Returns the requests sent
(none or one), the remaining script, and the outcome. -/
def singleAttempt (e : Engine) (cache : Cache) (sys_prompt prompt : String)
    (kwargs : PyDict) (script : List NetOutcome) :
    List Request × List NetOutcome × AttemptOut :=
  let cache_key := sys_prompt ++ prompt
  match assocGet cache cache_key with
  | some cached => ([], script, .ok cached cache)
  | none =>
      let req := mkRequest e sys_prompt prompt kwargs
      let (net, rest) : NetOutcome × List NetOutcome :=
        match script with
        | [] => (.transportError "scripted outcomes exhausted", [])
        | o :: os => (o, os)
      match net with
      | .transportError msg =>
          ([req], rest, .err (.runtimeError (composeApiError (.connError msg))))
      | .response r =>
          if 400 ≤ r.status ∧ r.status < 600 then
            ([req], rest,
             .err (.runtimeError (composeApiError (.httpError r req.url))))
          else
            match extractContent r.body with
            | .ok v => ([req], rest, .ok v (assocSet cache cache_key v))
            | .error pe => ([req], rest, .err pe)

/-- Result of the decorated `generate`. -/
inductive GenResult where
  | ok (v : RJson)
  | err (e : PyErr)

/-- The tenacity attempt loop.  `retriesLeft` counts the retries still
allowed after the current attempt (`stop_after_attempt(5)` gives an
initial value of 4): on a failing attempt with no retries left a
`RetryError` wrapping the last attempt's exception is raised (the
default `reraise=False`); any exception, not only the adapter's
`RuntimeError`, triggers a retry.  Accumulates every request sent. -/
def generateGo (e : Engine) (sys_prompt prompt : String) (kwargs : PyDict) :
    Nat → Cache → List NetOutcome → List Request × Cache × GenResult
  | 0, cache, script =>
      match singleAttempt e cache sys_prompt prompt kwargs script with
      | (reqs, _, .ok v c) => (reqs, c, .ok v)
      | (reqs, _, .err pe) => (reqs, cache, .err (.retryError pe))
  | retriesLeft + 1, cache, script =>
      match singleAttempt e cache sys_prompt prompt kwargs script with
      | (reqs, _, .ok v c) => (reqs, c, .ok v)
      | (reqs, rest, .err _) =>
          let next := generateGo e sys_prompt prompt kwargs retriesLeft cache rest
          (reqs ++ next.1, next.2.1, next.2.2)

/-- `generate(prompt, system_prompt=None, **kwargs)` under the decorator
`@retry(wait=wait_random_exponential(min=1, max=5), stop=stop_after_attempt(5))`:
up to 5 attempts.  Returns the list of requests sent, the final cache
contents, and the result. -/
def generate (e : Engine) (cache : Cache) (prompt : String)
    (system_prompt : Option String) (kwargs : PyDict)
    (script : List NetOutcome) : List Request × Cache × GenResult :=
  generateGo e (effectiveSysPrompt e system_prompt) prompt kwargs 4 cache script

/-- tenacity `wait_exponential(multiplier, max, exp_base, min)` evaluated
after attempt number `n`:
`max(max(0, min), min(multiplier * exp_base^(n-1), max))`. -/
def waitExponentialVal (multiplier minW maxW expBase : Rat) (n : Nat) : Rat :=
  max (max 0 minW) (min (multiplier * expBase ^ (n - 1)) maxW)

/-- tenacity `wait_random_exponential(min=1, max=5)` evaluated after
attempt number `n`, with the uniform draw `random.uniform(0, high)`
modelled as `r * high` for a draw parameter `r` in `[0, 1]`. -/
def generateWait (r : Rat) (n : Nat) : Rat :=
  r * waitExponentialVal 1 1 5 2 n

/-- The underlying exception of one failing network attempt. -/
def attemptExc (url : String) : NetOutcome → ReqException
  | .transportError m => .connError m
  | .response r => .httpError r url

/-- Whether a scripted outcome makes the attempt fail at the network
layer: a transport error, or a response `raise_for_status` raises on. -/
def NetOutcome.failing : NetOutcome → Bool
  | .transportError _ => true
  | .response r => decide (400 ≤ r.status) && decide (r.status < 600)

/-- Whether `needle` is a prefix of `hay` (over character lists). -/
def listIsPrefix : List Char → List Char → Bool
  | [], _ => true
  | _ :: _, [] => false
  | a :: as, b :: bs => a = b && listIsPrefix as bs

/-- Whether `needle` occurs contiguously inside `hay`. -/
def listContainsSub (needle : List Char) : List Char → Bool
  | [] => listIsPrefix needle []
  | c :: t => listIsPrefix needle (c :: t) || listContainsSub needle t

/-- Whether the string `needle` occurs inside the string `hay`. -/
def substrOf (hay needle : String) : Bool :=
  listContainsSub needle.data hay.data

/-- A response body of the expected shape, with the generated text at
`choices[0].message.content`. -/
def okBody (content : String) : RJson :=
  .obj [("choices", .arr [.obj [("message", .obj [("content", .str content)])]])]

/-- A successful response carrying `content` at the expected path. -/
def okResp (content : String) : HTTPResponse :=
  { status := 200, reason := "OK", body := okBody content, text := "raw-body" }

/-- A 200 response whose JSON body has an empty `choices` list. -/
def badResp : HTTPResponse :=
  { status := 200, reason := "OK", body := .obj [("choices", .arr [])],
    text := "raw-body" }

/-- A concrete engine, as `__init__` would build it for the default
model and system prompt with credential "test-key". -/
def E0 : Engine :=
  { model_string := defaultModelString
    system_prompt := DEFAULT_SYSTEM_PROMPT
    api_key := "test-key"
    base_url := "https://openrouter.ai/api/v1"
    headers := [("Authorization", "Bearer test-key"),
                ("Content-Type", "application/json"),
                ("HTTP-Referer", "https://example.com"),
                ("X-Title", "TextGrad App")]
    default_params := [("temperature", .n (7/10)), ("max_tokens", .n 1024),
                       ("top_p", .n 1)] }

/-- The engine `engineInit "root" "m" "sys" (some "k") none none none []`
constructs. -/
def E1 : Engine :=
  { model_string := "m"
    system_prompt := "sys"
    api_key := "k"
    base_url := "https://openrouter.ai/api/v1"
    headers := [("Authorization", "Bearer k"),
                ("Content-Type", "application/json"),
                ("HTTP-Referer", "https://example.com"),
                ("X-Title", "TextGrad App")]
    default_params := [("temperature", .n (7/10)), ("max_tokens", .n 1024),
                       ("top_p", .n 1)] }

/-- A cache already holding an answer for prompt "p" under the default
system prompt. -/
def hitCache : Cache := [(DEFAULT_SYSTEM_PROMPT ++ "p", .str "4")]

/-- The retry claim exactly as stated: with a transport failing
transiently on the first N attempts (N < 5) and then succeeding,
`generate` returns the successful result, the transport is invoked
exactly N+1 times, and every wait between attempts — for every possible
uniform draw — lies between 1 and 5 time units. -/
def c5Claim : Prop :=
  ∀ (e : Engine) (cache : Cache) (prompt : String) (sp : Option String)
    (kwargs : PyDict) (N : Nat) (msg : String) (r : HTTPResponse) (v : RJson),
    N < 5 →
    assocGet cache (effectiveSysPrompt e sp ++ prompt) = none →
    r.status < 400 →
    extractContent r.body = Except.ok v →
    ((generate e cache prompt sp kwargs
        (List.replicate N (.transportError msg) ++ [.response r])).2.2 = .ok v ∧
     (generate e cache prompt sp kwargs
        (List.replicate N (.transportError msg) ++ [.response r])).1.length = N + 1 ∧
     ∀ (n : Nat) (rd : Rat), 1 ≤ n → n ≤ N → 0 ≤ rd → rd ≤ 1 →
       1 ≤ generateWait rd n ∧ generateWait rd n ≤ 5)

/- ### Association-list lemmas -/

theorem assocGet_eq_none_of_not_mem {α : Type} (d : List (String × α)) (k : String)
    (h : k ∉ d.map Prod.fst) : assocGet d k = none := by
  induction d with
  | nil => rfl
  | cons kv rest ih =>
    simp only [List.map_cons, List.mem_cons] at h
    push_neg at h
    simp only [assocGet]
    rw [if_neg (fun e => h.1 e.symm), ih h.2]

theorem assocHasKey_false_iff {α : Type} (d : List (String × α)) (k : String) :
    assocHasKey d k = false ↔ k ∉ d.map Prod.fst := by
  induction d with
  | nil => simp [assocHasKey]
  | cons kv rest ih =>
    simp only [assocHasKey, Bool.or_eq_false_iff, decide_eq_false_iff_not,
      List.map_cons, List.mem_cons, ih]
    constructor
    · rintro ⟨h1, h2⟩ (h | h)
      · exact h1 h.symm
      · exact h2 h
    · intro h
      push_neg at h
      exact ⟨fun e => h.1 e.symm, h.2⟩

theorem assocGet_mapSet_self {α : Type} (d : List (String × α)) (k : String) (v : α)
    (h : assocHasKey d k = true) :
    assocGet (d.map fun kv => if kv.1 = k then (k, v) else kv) k = some v := by
  induction d with
  | nil => simp [assocHasKey] at h
  | cons kv rest ih =>
    by_cases he : kv.1 = k
    · simp [assocGet, he]
    · have h2 : assocHasKey rest k = true := by
        simpa [assocHasKey, he] using h
      simp only [List.map_cons, if_neg he, assocGet]
      exact ih h2

theorem assocGet_append_single_self {α : Type} (d : List (String × α)) (k : String)
    (v : α) (h : assocHasKey d k = false) :
    assocGet (d ++ [(k, v)]) k = some v := by
  induction d with
  | nil => simp [assocGet]
  | cons kv rest ih =>
    have he : ¬ (kv.1 = k) := by
      intro e
      simp [assocHasKey, e] at h
    have h2 : assocHasKey rest k = false := by
      simpa [assocHasKey, he] using h
    simp only [List.cons_append, assocGet]
    rw [if_neg he]
    exact ih h2

theorem assocGet_set_self {α : Type} (d : List (String × α)) (k : String) (v : α) :
    assocGet (assocSet d k v) k = some v := by
  unfold assocSet
  by_cases h : assocHasKey d k = true
  · rw [if_pos h]
    exact assocGet_mapSet_self d k v h
  · rw [if_neg h]
    exact assocGet_append_single_self d k v (by simpa using h)

theorem assocGet_mapSet_ne {α : Type} (d : List (String × α)) (k k' : String) (v : α)
    (h : k' ≠ k) :
    assocGet (d.map fun kv => if kv.1 = k then (k, v) else kv) k' = assocGet d k' := by
  induction d with
  | nil => rfl
  | cons kv rest ih =>
    by_cases he : kv.1 = k
    · simp only [List.map_cons, if_pos he, assocGet]
      rw [if_neg (fun e => h e.symm), if_neg (fun e => h (he.symm.trans e).symm), ih]
    · simp only [List.map_cons, if_neg he, assocGet]
      by_cases h2 : kv.1 = k'
      · rw [if_pos h2, if_pos h2]
      · rw [if_neg h2, if_neg h2, ih]

theorem assocGet_append_single_ne {α : Type} (d : List (String × α)) (k k' : String)
    (v : α) (h : k' ≠ k) : assocGet (d ++ [(k, v)]) k' = assocGet d k' := by
  induction d with
  | nil =>
    show assocGet [(k, v)] k' = none
    simp only [assocGet]
    rw [if_neg (fun e => h e.symm)]
  | cons kv rest ih =>
    simp only [List.cons_append, assocGet]
    by_cases h2 : kv.1 = k'
    · rw [if_pos h2, if_pos h2]
    · rw [if_neg h2, if_neg h2]
      exact ih

theorem assocGet_set_ne {α : Type} (d : List (String × α)) (k k' : String) (v : α)
    (h : k' ≠ k) : assocGet (assocSet d k v) k' = assocGet d k' := by
  unfold assocSet
  by_cases hk : assocHasKey d k = true
  · rw [if_pos hk]
    exact assocGet_mapSet_ne d k k' v h
  · rw [if_neg hk]
    exact assocGet_append_single_ne d k k' v h

theorem assocGet_merge_none (a b : PyDict) (k : String)
    (h : assocGet b k = none) : assocGet (dictMerge a b) k = assocGet a k := by
  induction b generalizing a with
  | nil => rfl
  | cons kv bs ih =>
    have h1 : ¬ (kv.1 = k) := by
      intro e
      simp [assocGet, e] at h
    have h2 : assocGet bs k = none := by
      simpa [assocGet, h1] using h
    show assocGet (dictMerge (assocSet a kv.1 kv.2) bs) k = assocGet a k
    rw [ih _ h2, assocGet_set_ne _ _ _ _ (fun e => h1 e.symm)]

theorem assocGet_merge_some (a b : PyDict) (k : String) (v : PVal)
    (hnd : (b.map Prod.fst).Nodup) (h : assocGet b k = some v) :
    assocGet (dictMerge a b) k = some v := by
  induction b generalizing a with
  | nil => simp [assocGet] at h
  | cons kv bs ih =>
    simp only [List.map_cons, List.nodup_cons] at hnd
    by_cases he : kv.1 = k
    · have hv : v = kv.2 := by
        simp only [assocGet, if_pos he] at h
        exact (Option.some.inj h).symm
      have hnone : assocGet bs k = none :=
        assocGet_eq_none_of_not_mem bs k (he ▸ hnd.1)
      show assocGet (dictMerge (assocSet a kv.1 kv.2) bs) k = some v
      rw [assocGet_merge_none _ _ _ hnone, he, assocGet_set_self, hv]
    · have h2 : assocGet bs k = some v := by
        simpa [assocGet, he] using h
      exact ih _ hnd.2 h2

/- ### Run lemmas for `generate` -/

theorem generateGo_hit (e : Engine) (sys_prompt prompt : String) (kwargs : PyDict)
    (fuel : Nat) (cache : Cache) (script : List NetOutcome) (t : RJson)
    (hhit : assocGet cache (sys_prompt ++ prompt) = some t) :
    generateGo e sys_prompt prompt kwargs fuel cache script = ([], cache, .ok t) := by
  cases fuel <;> simp [generateGo, singleAttempt, hhit]

theorem singleAttempt_reqs (e : Engine) (cache : Cache) (sp prompt : String)
    (kwargs : PyDict) (script : List NetOutcome) :
    (singleAttempt e cache sp prompt kwargs script).1 = [] ∨
    (singleAttempt e cache sp prompt kwargs script).1 =
      [mkRequest e sp prompt kwargs] := by
  rcases hget : assocGet cache (sp ++ prompt) with _ | t
  · rcases script with _ | ⟨o, os⟩
    · simp [singleAttempt, hget]
    · rcases o with r | m
      · by_cases hs : 400 ≤ r.status ∧ r.status < 600
        · simp [singleAttempt, hget, hs]
        · rcases hx : extractContent r.body with pe | v <;>
            simp [singleAttempt, hget, hs, hx]
      · simp [singleAttempt, hget]
  · simp [singleAttempt, hget]

theorem generateGo_req (e : Engine) (sp prompt : String) (kwargs : PyDict) :
    ∀ (fuel : Nat) (cache : Cache) (script : List NetOutcome) (req : Request),
      req ∈ (generateGo e sp prompt kwargs fuel cache script).1 →
      req = mkRequest e sp prompt kwargs := by
  intro fuel
  induction fuel with
  | zero =>
    intro cache script req hmem
    unfold generateGo at hmem
    rcases hsa : singleAttempt e cache sp prompt kwargs script with ⟨reqs, rest, out⟩
    rw [hsa] at hmem
    have hr := singleAttempt_reqs e cache sp prompt kwargs script
    rw [hsa] at hr
    cases out with
    | ok v c =>
      simp only at hmem
      rcases hr with hr | hr <;> subst hr
      · simp at hmem
      · simpa using hmem
    | err pe =>
      simp only at hmem
      rcases hr with hr | hr <;> subst hr
      · simp at hmem
      · simpa using hmem
  | succ n ih =>
    intro cache script req hmem
    unfold generateGo at hmem
    rcases hsa : singleAttempt e cache sp prompt kwargs script with ⟨reqs, rest, out⟩
    rw [hsa] at hmem
    have hr := singleAttempt_reqs e cache sp prompt kwargs script
    rw [hsa] at hr
    cases out with
    | ok v c =>
      simp only at hmem
      rcases hr with hr | hr <;> subst hr
      · simp at hmem
      · simpa using hmem
    | err pe =>
      simp only [List.mem_append] at hmem
      rcases hmem with hmem | hmem
      · rcases hr with hr | hr <;> subst hr
        · simp at hmem
        · simpa using hmem
      · exact ih cache rest req hmem

theorem generateGo_err_cache (e : Engine) (sp prompt : String) (kwargs : PyDict) :
    ∀ (fuel : Nat) (cache : Cache) (script : List NetOutcome) (pe : PyErr),
      (generateGo e sp prompt kwargs fuel cache script).2.2 = .err pe →
      (generateGo e sp prompt kwargs fuel cache script).2.1 = cache := by
  intro fuel
  induction fuel with
  | zero =>
    intro cache script pe h
    unfold generateGo at h ⊢
    rcases hsa : singleAttempt e cache sp prompt kwargs script with ⟨reqs, rest, out⟩
    rw [hsa] at h
    cases out with
    | ok v c => simp at h
    | err pe2 => rfl
  | succ n ih =>
    intro cache script pe h
    unfold generateGo at h ⊢
    rcases hsa : singleAttempt e cache sp prompt kwargs script with ⟨reqs, rest, out⟩
    rw [hsa] at h
    cases out with
    | ok v c => simp at h
    | err pe2 =>
      simp only at h ⊢
      exact ih cache rest pe h

theorem generateGo_failing (e : Engine) (sp prompt : String) (kwargs : PyDict) :
    ∀ (fuel : Nat) (cache : Cache) (pre : List NetOutcome) (o : NetOutcome),
      assocGet cache (sp ++ prompt) = none →
      (∀ x ∈ pre, x.failing = true) → o.failing = true → pre.length = fuel →
      generateGo e sp prompt kwargs fuel cache (pre ++ [o]) =
        (List.replicate (fuel + 1) (mkRequest e sp prompt kwargs), cache,
         .err (.retryError (.runtimeError (composeApiError
           (attemptExc (e.base_url ++ "/chat/completions") o))))) := by
  intro fuel
  induction fuel with
  | zero =>
    intro cache pre o hmiss _ ho hlen
    rw [List.eq_nil_of_length_eq_zero hlen]
    cases o with
    | transportError m =>
      simp [generateGo, singleAttempt, hmiss, mkRequest, attemptExc]
    | response r =>
      simp only [NetOutcome.failing, Bool.and_eq_true, decide_eq_true_eq] at ho
      simp [generateGo, singleAttempt, hmiss, ho.1, ho.2, mkRequest, attemptExc]
  | succ n ih =>
    intro cache pre o hmiss hpre ho hlen
    cases pre with
    | nil => simp at hlen
    | cons x pre2 =>
      have hx : x.failing = true := hpre x (List.mem_cons_self x pre2)
      have hpre2 : ∀ y ∈ pre2, y.failing = true :=
        fun y hy => hpre y (List.mem_cons_of_mem x hy)
      have hlen2 : pre2.length = n := by simpa using hlen
      have hrec := ih cache pre2 o hmiss hpre2 ho hlen2
      cases x with
      | transportError m =>
        simp only [List.cons_append]
        simp [generateGo, singleAttempt, hmiss, hrec, List.replicate_succ]
      | response r =>
        simp only [NetOutcome.failing, Bool.and_eq_true, decide_eq_true_eq] at hx
        simp only [List.cons_append]
        simp [generateGo, singleAttempt, hmiss, hx.1, hx.2, hrec, List.replicate_succ]

theorem generateGo_transient (e : Engine) (sp prompt : String) (kwargs : PyDict) :
    ∀ (N fuel : Nat) (cache : Cache) (msg : String) (r : HTTPResponse) (v : RJson),
      N ≤ fuel → assocGet cache (sp ++ prompt) = none → r.status < 400 →
      extractContent r.body = Except.ok v →
      generateGo e sp prompt kwargs fuel cache
        (List.replicate N (.transportError msg) ++ [.response r]) =
        (List.replicate (N + 1) (mkRequest e sp prompt kwargs),
         assocSet cache (sp ++ prompt) v, .ok v) := by
  intro N
  induction N with
  | zero =>
    intro fuel cache msg r v _ hmiss hst hbody
    have hnr : ¬ (400 ≤ r.status ∧ r.status < 600) := by omega
    cases fuel <;>
      simp [generateGo, singleAttempt, hmiss, hnr, hbody, mkRequest]
  | succ n ih =>
    intro fuel cache msg r v hle hmiss hst hbody
    cases fuel with
    | zero => omega
    | succ f =>
      have hrec := ih f cache msg r v (by omega) hmiss hst hbody
      simp only [List.replicate_succ, List.cons_append]
      simp [generateGo, singleAttempt, hmiss, hrec, List.replicate_succ]

theorem generateGo_badbody (e : Engine) (sp prompt : String) (kwargs : PyDict) :
    ∀ (fuel : Nat) (cache : Cache) (r : HTTPResponse) (pe : PyErr),
      assocGet cache (sp ++ prompt) = none → r.status < 400 →
      extractContent r.body = Except.error pe →
      generateGo e sp prompt kwargs fuel cache
        (List.replicate (fuel + 1) (.response r)) =
        (List.replicate (fuel + 1) (mkRequest e sp prompt kwargs), cache,
         .err (.retryError pe)) := by
  intro fuel
  induction fuel with
  | zero =>
    intro cache r pe hmiss hst hbody
    have hnr : ¬ (400 ≤ r.status ∧ r.status < 600) := by omega
    simp [generateGo, singleAttempt, hmiss, hnr, hbody]
  | succ n ih =>
    intro cache r pe hmiss hst hbody
    have hnr : ¬ (400 ≤ r.status ∧ r.status < 600) := by omega
    have hrec := ih cache r pe hmiss hst hbody
    show generateGo e sp prompt kwargs (n + 1) cache
        (NetOutcome.response r :: List.replicate (n + 1) (NetOutcome.response r)) =
      (mkRequest e sp prompt kwargs ::
        List.replicate (n + 1) (mkRequest e sp prompt kwargs),
       cache, GenResult.err (PyErr.retryError pe))
    simp [generateGo, singleAttempt, hmiss, hnr, hbody, hrec]

/- ### Substring and wait lemmas -/

theorem listIsPrefix_append_self (n t : List Char) :
    listIsPrefix n (n ++ t) = true := by
  induction n with
  | nil => rfl
  | cons a as ih => simp [listIsPrefix, ih]

theorem listContainsSub_of_isPrefix (n h : List Char)
    (hp : listIsPrefix n h = true) : listContainsSub n h = true := by
  cases h with
  | nil => simpa [listContainsSub] using hp
  | cons c t => simp [listContainsSub, hp]

theorem listContainsSub_append_left (n x h : List Char)
    (hc : listContainsSub n h = true) : listContainsSub n (x ++ h) = true := by
  induction x with
  | nil => simpa
  | cons a as ih => simp [listContainsSub, ih]

theorem string_data_append (a b : String) : (a ++ b).data = a.data ++ b.data := by
  cases a
  cases b
  rfl

theorem substrOf_append_mid (a b c : String) : substrOf (a ++ b ++ c) b = true := by
  unfold substrOf
  rw [string_data_append, string_data_append, List.append_assoc]
  exact listContainsSub_append_left _ _ _
    (listContainsSub_of_isPrefix _ _ (listIsPrefix_append_self _ _))

theorem substrOf_append_left (a b : String) : substrOf (a ++ b) b = true := by
  unfold substrOf
  rw [string_data_append]
  exact listContainsSub_append_left _ _ _
    (listContainsSub_of_isPrefix _ _ (by simpa using listIsPrefix_append_self b.data []))

theorem generateWait_nonneg (r : Rat) (n : Nat) (hr : 0 ≤ r) :
    0 ≤ generateWait r n := by
  unfold generateWait waitExponentialVal
  have h0 : (0:Rat) ≤ max (max 0 1) (min (1 * 2 ^ (n - 1)) 5) :=
    le_trans (by norm_num) (le_max_left _ _)
  exact mul_nonneg hr h0

theorem generateWait_le_five (r : Rat) (n : Nat) (hr1 : r ≤ 1) :
    generateWait r n ≤ 5 := by
  unfold generateWait waitExponentialVal
  have h0 : (0:Rat) ≤ max (max 0 1) (min (1 * 2 ^ (n - 1)) 5) :=
    le_trans (by norm_num) (le_max_left _ _)
  have hhi : max (max 0 1) (min (1 * (2:Rat) ^ (n - 1)) 5) ≤ 5 := by
    apply max_le
    · norm_num
    · exact min_le_right _ _
  calc r * (max (max 0 1) (min (1 * (2:Rat) ^ (n - 1)) 5))
      ≤ 1 * (max (max 0 1) (min (1 * (2:Rat) ^ (n - 1)) 5)) :=
        mul_le_mul_of_nonneg_right hr1 h0
    _ = max (max 0 1) (min (1 * (2:Rat) ^ (n - 1)) 5) := one_mul _
    _ ≤ 5 := hhi

/-- Inverts a successful construction: the engine `engineInit` returns
carries the fixed base url, the four headers with configured-or-default
routing metadata, the given model string, and the three default
generation parameters. -/
theorem engineInit_ok (root m sysp : String) (ak su sn env : Option String)
    (kw : PyDict) (e : Engine)
    (he : (engineInit root m sysp ak su sn env kw).2 = Except.ok e) :
    e.base_url = "https://openrouter.ai/api/v1" ∧
    e.headers = [("Authorization", "Bearer " ++ e.api_key),
                 ("Content-Type", "application/json"),
                 ("HTTP-Referer", pyOrD su "https://example.com"),
                 ("X-Title", pyOrD sn "TextGrad App")] ∧
    e.model_string = m ∧
    e.default_params = [("temperature", dictGetD kw "temperature" (.n (7/10))),
                        ("max_tokens", dictGetD kw "max_tokens" (.n 1024)),
                        ("top_p", dictGetD kw "top_p" (.n 1))] := by
  unfold engineInit at he
  split at he
  · simp at he
  · split at he
    · simp at he
    · have he2 := Except.ok.inj he
      subst he2
      exact ⟨rfl, rfl, rfl, rfl⟩

/- ### The claims -/

/-- C1: for every prompt and effective system prompt whose cache key —
the effective system prompt concatenated with the user prompt, no
delimiter — is present in the cache store, `generate` returns the
stored value, sends no request (hence performs no retry), and leaves
the cache unchanged. -/
theorem claim_C1 (e : Engine) (cache : Cache) (prompt : String)
    (system_prompt : Option String) (kwargs : PyDict) (script : List NetOutcome)
    (t : RJson)
    (hhit : assocGet cache (effectiveSysPrompt e system_prompt ++ prompt) = some t) :
    generate e cache prompt system_prompt kwargs script = ([], cache, .ok t) := by
  unfold generate
  exact generateGo_hit e _ prompt kwargs 4 cache script t hhit

/-- Witness for C1 at a concrete cached prompt. -/
theorem claim_C1_witness :
    assocGet hitCache (effectiveSysPrompt E0 none ++ "p") = some (RJson.str "4") ∧
    generate E0 hitCache "p" none [] [] = ([], hitCache, .ok (RJson.str "4")) :=
  ⟨rfl, claim_C1 E0 hitCache "p" none [] [] (RJson.str "4") rfl⟩

/-- C2: on a cache miss with a successful response, `generate` sends
exactly one request, returns the value at `choices[0].message.content`
of the response body, stores it under the cache key, and an identical
follow-up call answers from the cache with no further request. -/
theorem claim_C2 (e : Engine) (cache : Cache) (prompt : String)
    (system_prompt : Option String) (kwargs kwargs2 : PyDict)
    (script2 : List NetOutcome) (r : HTTPResponse) (v : RJson)
    (hmiss : assocGet cache (effectiveSysPrompt e system_prompt ++ prompt) = none)
    (hok : r.status < 400)
    (hbody : extractContent r.body = Except.ok v) :
    generate e cache prompt system_prompt kwargs [.response r] =
      ([mkRequest e (effectiveSysPrompt e system_prompt) prompt kwargs],
       assocSet cache (effectiveSysPrompt e system_prompt ++ prompt) v, .ok v) ∧
    generate e (assocSet cache (effectiveSysPrompt e system_prompt ++ prompt) v)
        prompt system_prompt kwargs2 script2 =
      ([], assocSet cache (effectiveSysPrompt e system_prompt ++ prompt) v,
       .ok v) := by
  constructor
  · unfold generate
    have h := generateGo_transient e (effectiveSysPrompt e system_prompt) prompt
      kwargs 0 4 cache "" r v (by omega) hmiss hok hbody
    simpa using h
  · unfold generate
    exact generateGo_hit e _ prompt kwargs2 4 _ script2 v (assocGet_set_self _ _ _)

/-- Witness for C2: the spec's example scenario, prompt `2+2=` with a
mocked body carrying `4`. -/
theorem claim_C2_witness :
    (assocGet ([] : Cache) (effectiveSysPrompt E0 none ++ "2+2=") = none ∧
     (okResp "4").status < 400 ∧
     extractContent (okResp "4").body = Except.ok (RJson.str "4")) ∧
    (generate E0 [] "2+2=" none [] [.response (okResp "4")] =
      ([mkRequest E0 (effectiveSysPrompt E0 none) "2+2=" []],
       assocSet [] (effectiveSysPrompt E0 none ++ "2+2=") (RJson.str "4"),
       .ok (RJson.str "4")) ∧
     generate E0 (assocSet [] (effectiveSysPrompt E0 none ++ "2+2=") (RJson.str "4"))
        "2+2=" none [] [] =
      ([], assocSet [] (effectiveSysPrompt E0 none ++ "2+2=") (RJson.str "4"),
       .ok (RJson.str "4"))) :=
  ⟨⟨rfl, by decide, rfl⟩,
   claim_C2 E0 [] "2+2=" none [] [] [] (okResp "4") (RJson.str "4") rfl (by decide) rfl⟩

/-- Counterexample to C3 as stated: with a transport that always fails,
`generate` does fail after exactly 5 attempts, but the raised failure is
tenacity's `RetryError`, whose message shows only the wrapped future's
state and exception class — it does not contain the underlying error
text. -/
theorem claim_C3_counterexample :
    (generate E0 [] "p" none []
      (List.replicate 5 (NetOutcome.transportError "connection refused"))).1.length = 5 ∧
    (generate E0 [] "p" none []
      (List.replicate 5 (NetOutcome.transportError "connection refused"))).2.2 =
      .err (.retryError (.runtimeError "DeepSeek API Error: connection refused")) ∧
    substrOf (PyErr.message
        (.retryError (.runtimeError "DeepSeek API Error: connection refused")))
      "connection refused" = false := by
  refine ⟨rfl, rfl, ?_⟩
  decide

/-- C3 (amended): when every network attempt fails with a transport or
non-2xx error, `generate` makes exactly 5 attempts and raises a
retry-exhaustion failure wrapping the last attempt's runtime error; the
wrapped error's message (not the raised failure's own message) contains
the underlying error text. -/
theorem claim_C3 (e : Engine) (cache : Cache) (prompt : String)
    (system_prompt : Option String) (kwargs : PyDict) (pre : List NetOutcome)
    (o : NetOutcome)
    (hmiss : assocGet cache (effectiveSysPrompt e system_prompt ++ prompt) = none)
    (hpre : ∀ x ∈ pre, x.failing = true) (ho : o.failing = true)
    (hlen : pre.length = 4) :
    (generate e cache prompt system_prompt kwargs (pre ++ [o])).1.length = 5 ∧
    (generate e cache prompt system_prompt kwargs (pre ++ [o])).2.2 =
      .err (.retryError (.runtimeError
        (composeApiError (attemptExc (e.base_url ++ "/chat/completions") o)))) ∧
    substrOf (composeApiError (attemptExc (e.base_url ++ "/chat/completions") o))
      ((attemptExc (e.base_url ++ "/chat/completions") o).pyStr) = true := by
  have hrun := generateGo_failing e (effectiveSysPrompt e system_prompt) prompt
    kwargs 4 cache pre o hmiss hpre ho hlen
  refine ⟨?_, ?_, ?_⟩
  · unfold generate
    rw [hrun]
    simp
  · unfold generate
    rw [hrun]
  · cases o with
    | transportError m =>
      exact substrOf_append_left _ _
    | response r =>
      simp only [NetOutcome.failing, Bool.and_eq_true, decide_eq_true_eq] at ho
      have hro : respOk r = false := by
        unfold respOk
        simp only [decide_eq_false_iff_not, not_lt]
        omega
      have hc : composeApiError
            (attemptExc (e.base_url ++ "/chat/completions") (.response r)) =
          "DeepSeek API Error: " ++
            (attemptExc (e.base_url ++ "/chat/completions") (.response r)).pyStr := by
        simp [composeApiError, attemptExc, ReqException.response, hro]
      rw [hc]
      exact substrOf_append_left _ _

/-- Witness for C3 (amended) at a concrete always-failing transport. -/
theorem claim_C3_witness :
    (assocGet ([] : Cache) (effectiveSysPrompt E0 none ++ "p") = none ∧
     (∀ x ∈ List.replicate 4 (NetOutcome.transportError "boom"), x.failing = true) ∧
     (NetOutcome.transportError "boom").failing = true ∧
     (List.replicate 4 (NetOutcome.transportError "boom")).length = 4) ∧
    ((generate E0 [] "p" none []
        (List.replicate 4 (NetOutcome.transportError "boom") ++
          [NetOutcome.transportError "boom"])).1.length = 5 ∧
     (generate E0 [] "p" none []
        (List.replicate 4 (NetOutcome.transportError "boom") ++
          [NetOutcome.transportError "boom"])).2.2 =
       .err (.retryError (.runtimeError (composeApiError
         (attemptExc (E0.base_url ++ "/chat/completions")
           (NetOutcome.transportError "boom"))))) ∧
     substrOf (composeApiError (attemptExc (E0.base_url ++ "/chat/completions")
         (NetOutcome.transportError "boom")))
       ((attemptExc (E0.base_url ++ "/chat/completions")
         (NetOutcome.transportError "boom")).pyStr) = true) :=
  ⟨⟨rfl, by decide, rfl, rfl⟩,
   claim_C3 E0 [] "p" none [] (List.replicate 4 (NetOutcome.transportError "boom"))
     (NetOutcome.transportError "boom") rfl (by decide) rfl rfl⟩

/-- Counterexample to C4 as stated: constructing with no credential and
the environment variable unset does raise the configuration error, but
only after the on-disk cache store has been opened — the effect trace of
the failed construction contains the cache open. -/
theorem claim_C4_counterexample :
    (engineInit "root" defaultModelString DEFAULT_SYSTEM_PROMPT
       none none none none []).2 = .error (.valueError apiKeyErrorMsg) ∧
    (engineInit "root" defaultModelString DEFAULT_SYSTEM_PROMPT
       none none none none []).1 =
      [InitEffect.cacheOpen (cachePathOf "root" defaultModelString)] :=
  ⟨rfl, rfl⟩

/-- C4 (amended): constructing the adapter with no credential parameter
and the credential environment variable unset raises the configuration
error; no network access occurs, but the on-disk cache store at the
derived path is opened first (the superclass cache initialization runs
before the credential check). -/
theorem claim_C4 (root model_string system_prompt : String)
    (site_url site_name : Option String) (kwargs : PyDict) :
    (engineInit root model_string system_prompt none site_url site_name
       none kwargs).2 = .error (.valueError apiKeyErrorMsg) ∧
    (engineInit root model_string system_prompt none site_url site_name
       none kwargs).1 =
      [InitEffect.cacheOpen (cachePathOf root model_string)] :=
  ⟨rfl, rfl⟩

/-- Counterexample to C5 as stated: the wait between attempts is a
uniform draw from `[0, high]`; at draw 0 after the first failure the
wait is 0, below the claimed lower bound of 1. -/
theorem claim_C5_counterexample : ¬ c5Claim := by
  intro h
  have h2 := (h E0 [] "p" none [] 1 "x" (okResp "4") (RJson.str "4")
      (by norm_num) rfl (by decide) rfl).2.2 1 0 le_rfl le_rfl le_rfl (by norm_num)
  have h3 : (1 : Rat) ≤ 0 := by
    simpa [generateWait] using h2.1
  norm_num at h3

/-- C5 (amended): with the transport failing transiently on exactly the
first N attempts (N < 5) and then succeeding, `generate` returns the
successful result and the transport is invoked exactly N+1 times; each
wait between attempts lies between 0 and 5 time units (the configured
minimum of 1 only raises the upper end of the random window, whose lower
end is 0). -/
theorem claim_C5 (e : Engine) (cache : Cache) (prompt : String)
    (system_prompt : Option String) (kwargs : PyDict) (N : Nat) (msg : String)
    (r : HTTPResponse) (v : RJson)
    (hN : N < 5)
    (hmiss : assocGet cache (effectiveSysPrompt e system_prompt ++ prompt) = none)
    (hok : r.status < 400)
    (hbody : extractContent r.body = Except.ok v) :
    (generate e cache prompt system_prompt kwargs
       (List.replicate N (.transportError msg) ++ [.response r])).2.2 = .ok v ∧
    (generate e cache prompt system_prompt kwargs
       (List.replicate N (.transportError msg) ++ [.response r])).1.length = N + 1 ∧
    ∀ (n : Nat) (rd : Rat), 0 ≤ rd → rd ≤ 1 →
      0 ≤ generateWait rd n ∧ generateWait rd n ≤ 5 := by
  have hrun := generateGo_transient e (effectiveSysPrompt e system_prompt) prompt
    kwargs N 4 cache msg r v (by omega) hmiss hok hbody
  refine ⟨?_, ?_, ?_⟩
  · unfold generate
    rw [hrun]
  · unfold generate
    rw [hrun]
    simp
  · exact fun n rd h0 h1 =>
      ⟨generateWait_nonneg rd n h0, generateWait_le_five rd n h1⟩

/-- Witness for C5 (amended) at N = 1. -/
theorem claim_C5_witness :
    ((1 : Nat) < 5 ∧
     assocGet ([] : Cache) (effectiveSysPrompt E0 none ++ "p") = none ∧
     (okResp "4").status < 400 ∧
     extractContent (okResp "4").body = Except.ok (RJson.str "4")) ∧
    ((generate E0 [] "p" none []
        (List.replicate 1 (NetOutcome.transportError "x") ++
          [NetOutcome.response (okResp "4")])).2.2 = .ok (RJson.str "4") ∧
     (generate E0 [] "p" none []
        (List.replicate 1 (NetOutcome.transportError "x") ++
          [NetOutcome.response (okResp "4")])).1.length = 1 + 1 ∧
     ∀ (n : Nat) (rd : Rat), 0 ≤ rd → rd ≤ 1 →
       0 ≤ generateWait rd n ∧ generateWait rd n ≤ 5) :=
  ⟨⟨by norm_num, rfl, by decide, rfl⟩,
   claim_C5 E0 [] "p" none [] 1 "x" (okResp "4") (RJson.str "4")
     (by norm_num) rfl (by decide) rfl⟩

/-- Counterexample to C6 as stated: on a well-formed 200 response whose
JSON lacks the expected keys, the caller does not receive the bare
indexing/key error — the retry decorator retries the body (re-sending
the request, 5 requests in total) and the caller receives a
retry-exhaustion failure wrapping the indexing error. -/
theorem claim_C6_counterexample :
    (generate E0 [] "p" none []
      (List.replicate 5 (NetOutcome.response badResp))).2.2 =
      .err (.retryError (.indexError "list index out of range")) ∧
    (generate E0 [] "p" none []
      (List.replicate 5 (NetOutcome.response badResp))).2.2 ≠
      .err (.indexError "list index out of range") ∧
    (generate E0 [] "p" none []
      (List.replicate 5 (NetOutcome.response badResp))).1.length = 5 := by
  refine ⟨rfl, ?_, rfl⟩
  intro h
  rw [show (generate E0 [] "p" none []
      (List.replicate 5 (NetOutcome.response badResp))).2.2 =
      GenResult.err (.retryError (.indexError "list index out of range")) from rfl] at h
  simp at h

/-- C6 (amended): a response-shape failure (missing keys) is not caught
or converted by the adapter's body — the indexing/key error is preserved
verbatim — but the retry decorator retries it, so after 5 identical
attempts the caller receives a retry-exhaustion failure wrapping that
error, with the cache unchanged. -/
theorem claim_C6 (e : Engine) (cache : Cache) (prompt : String)
    (system_prompt : Option String) (kwargs : PyDict) (r : HTTPResponse)
    (pe : PyErr)
    (hmiss : assocGet cache (effectiveSysPrompt e system_prompt ++ prompt) = none)
    (hok : r.status < 400)
    (hbad : extractContent r.body = Except.error pe) :
    generate e cache prompt system_prompt kwargs
      (List.replicate 5 (.response r)) =
      (List.replicate 5 (mkRequest e (effectiveSysPrompt e system_prompt) prompt kwargs),
       cache, .err (.retryError pe)) := by
  unfold generate
  exact generateGo_badbody e _ prompt kwargs 4 cache r pe hmiss hok hbad

/-- Witness for C6 (amended) on a body with an empty `choices` list. -/
theorem claim_C6_witness :
    (assocGet ([] : Cache) (effectiveSysPrompt E0 none ++ "p") = none ∧
     badResp.status < 400 ∧
     extractContent badResp.body = Except.error (.indexError "list index out of range")) ∧
    generate E0 [] "p" none [] (List.replicate 5 (NetOutcome.response badResp)) =
      (List.replicate 5 (mkRequest E0 (effectiveSysPrompt E0 none) "p" []), [],
       .err (.retryError (.indexError "list index out of range"))) :=
  ⟨⟨rfl, by decide, rfl⟩,
   claim_C6 E0 [] "p" none [] badResp (.indexError "list index out of range")
     rfl (by decide) rfl⟩

/-- C7: every outgoing request of an engine built by `__init__` is an
HTTP POST to the fixed endpoint, carries the Authorization bearer
header, the JSON content type, the configured-or-default HTTP-Referer
and X-Title headers, and a 30-second timeout. -/
theorem claim_C7 (root m sysp : String) (ak su sn env : Option String)
    (kw : PyDict) (e : Engine) (cache : Cache) (prompt : String)
    (system_prompt : Option String) (kwargs : PyDict) (script : List NetOutcome)
    (req : Request)
    (he : (engineInit root m sysp ak su sn env kw).2 = Except.ok e)
    (hreq : req ∈ (generate e cache prompt system_prompt kwargs script).1) :
    req.method = "POST" ∧
    req.url = "https://openrouter.ai/api/v1/chat/completions" ∧
    req.headers = [("Authorization", "Bearer " ++ e.api_key),
                   ("Content-Type", "application/json"),
                   ("HTTP-Referer", pyOrD su "https://example.com"),
                   ("X-Title", pyOrD sn "TextGrad App")] ∧
    req.timeout = 30 := by
  have hf := engineInit_ok root m sysp ak su sn env kw e he
  unfold generate at hreq
  have hr : req = mkRequest e (effectiveSysPrompt e system_prompt) prompt kwargs :=
    generateGo_req e _ prompt kwargs 4 cache script req hreq
  subst hr
  refine ⟨rfl, ?_, hf.2.1, rfl⟩
  show e.base_url ++ "/chat/completions" = "https://openrouter.ai/api/v1/chat/completions"
  rw [hf.1]
  rfl

/-- Witness for C7 on a concretely constructed engine and a run that
sends one request. -/
theorem claim_C7_witness :
    ((engineInit "root" "m" "sys" (some "k") none none none []).2 = Except.ok E1 ∧
     mkRequest E1 (effectiveSysPrompt E1 none) "p" [] ∈
       (generate E1 [] "p" none [] [NetOutcome.response (okResp "4")]).1) ∧
    ((mkRequest E1 (effectiveSysPrompt E1 none) "p" []).method = "POST" ∧
     (mkRequest E1 (effectiveSysPrompt E1 none) "p" []).url =
       "https://openrouter.ai/api/v1/chat/completions" ∧
     (mkRequest E1 (effectiveSysPrompt E1 none) "p" []).headers =
       [("Authorization", "Bearer " ++ E1.api_key),
        ("Content-Type", "application/json"),
        ("HTTP-Referer", pyOrD none "https://example.com"),
        ("X-Title", pyOrD none "TextGrad App")] ∧
     (mkRequest E1 (effectiveSysPrompt E1 none) "p" []).timeout = 30) := by
  have hmem : mkRequest E1 (effectiveSysPrompt E1 none) "p" [] ∈
      (generate E1 [] "p" none [] [NetOutcome.response (okResp "4")]).1 := by
    show mkRequest E1 (effectiveSysPrompt E1 none) "p" [] ∈
      [mkRequest E1 (effectiveSysPrompt E1 none) "p" []]
    exact List.mem_singleton_self _
  exact ⟨⟨rfl, hmem⟩,
    claim_C7 "root" "m" "sys" (some "k") none none none [] E1 [] "p" none []
      [NetOutcome.response (okResp "4")]
      (mkRequest E1 (effectiveSysPrompt E1 none) "p" []) rfl hmem⟩

/-- Counterexample to C8 as stated: an extra keyword parameter named
`model` is merged last into the payload and silently overrides the model
identifier, so the payload of the sent request no longer carries the
instance's model string. -/
theorem claim_C8_counterexample :
    ((generate E0 [] "p" none [("model", PVal.s "other")]
        [NetOutcome.response (okResp "4")]).1.map
      (fun req => assocGet req.payload "model")) = [some (PVal.s "other")] ∧
    PVal.s "other" ≠ PVal.s E0.model_string := by
  refine ⟨rfl, ?_⟩
  decide

/-- C8 (amended): on a cache miss, provided the extra keyword parameters
do not use the reserved keys `model` or `messages` (which would override
those payload fields), every sent request's payload carries the model
identifier, exactly the two ordered messages (system with the effective
system prompt, then user with the prompt), and on every other key agrees
with the instance defaults overridden key-by-key by the extra
parameters. -/
theorem claim_C8 (root m sysp : String) (ak su sn env : Option String)
    (kw : PyDict) (e : Engine) (cache : Cache) (prompt : String)
    (system_prompt : Option String) (kwargs : PyDict) (script : List NetOutcome)
    (req : Request)
    (he : (engineInit root m sysp ak su sn env kw).2 = Except.ok e)
    (hreq : req ∈ (generate e cache prompt system_prompt kwargs script).1)
    (hnodup : (kwargs.map Prod.fst).Nodup)
    (hm : assocHasKey kwargs "model" = false)
    (hmsg : assocHasKey kwargs "messages" = false) :
    assocGet req.payload "model" = some (.s e.model_string) ∧
    assocGet req.payload "messages" =
      some (.msgs [⟨"system", effectiveSysPrompt e system_prompt⟩,
                   ⟨"user", prompt⟩]) ∧
    ∀ k, k ≠ "model" → k ≠ "messages" →
      assocGet req.payload k = assocGet (dictMerge e.default_params kwargs) k := by
  have hf := engineInit_ok root m sysp ak su sn env kw e he
  unfold generate at hreq
  have hr : req = mkRequest e (effectiveSysPrompt e system_prompt) prompt kwargs :=
    generateGo_req e _ prompt kwargs 4 cache script req hreq
  subst hr
  have hmn : assocGet kwargs "model" = none :=
    assocGet_eq_none_of_not_mem _ _ ((assocHasKey_false_iff _ _).1 hm)
  have hmsgn : assocGet kwargs "messages" = none :=
    assocGet_eq_none_of_not_mem _ _ ((assocHasKey_false_iff _ _).1 hmsg)
  have hdpnodup : (e.default_params.map Prod.fst).Nodup := by
    rw [hf.2.2.2]
    simp
  refine ⟨?_, ?_, ?_⟩
  · show assocGet (buildPayload e (effectiveSysPrompt e system_prompt) prompt kwargs)
      "model" = some (.s e.model_string)
    unfold buildPayload
    rw [assocGet_merge_none _ _ _ hmn,
        assocGet_merge_none _ _ _ (by rw [hf.2.2.2] ; simp [assocGet])]
    simp [assocGet]
  · show assocGet (buildPayload e (effectiveSysPrompt e system_prompt) prompt kwargs)
      "messages" = some (.msgs [⟨"system", effectiveSysPrompt e system_prompt⟩,
                                ⟨"user", prompt⟩])
    unfold buildPayload
    rw [assocGet_merge_none _ _ _ hmsgn,
        assocGet_merge_none _ _ _ (by rw [hf.2.2.2] ; simp [assocGet])]
    simp [assocGet]
  · intro k hk1 hk2
    show assocGet (buildPayload e (effectiveSysPrompt e system_prompt) prompt kwargs)
      k = assocGet (dictMerge e.default_params kwargs) k
    unfold buildPayload
    rcases hkw : assocGet kwargs k with _ | v
    · rw [assocGet_merge_none _ _ _ hkw, assocGet_merge_none _ _ _ hkw]
      rcases hdp : assocGet e.default_params k with _ | w
      · rw [assocGet_merge_none _ _ _ hdp]
        simp only [assocGet]
        rw [if_neg (fun h => hk1 h.symm), if_neg (fun h => hk2 h.symm)]
      · exact assocGet_merge_some _ _ _ _ hdpnodup hdp
    · rw [assocGet_merge_some _ _ _ _ hnodup hkw,
          assocGet_merge_some _ _ _ _ hnodup hkw]

/-- Witness for C8 (amended) with a temperature override. -/
theorem claim_C8_witness :
    ((engineInit "root" "m" "sys" (some "k") none none none []).2 = Except.ok E1 ∧
     mkRequest E1 (effectiveSysPrompt E1 none) "p" [("temperature", PVal.n 1)] ∈
       (generate E1 [] "p" none [("temperature", PVal.n 1)]
         [NetOutcome.response (okResp "4")]).1 ∧
     ((([("temperature", PVal.n 1)] : PyDict).map Prod.fst).Nodup ∧
      assocHasKey [("temperature", PVal.n 1)] "model" = false ∧
      assocHasKey [("temperature", PVal.n 1)] "messages" = false)) ∧
    (assocGet (mkRequest E1 (effectiveSysPrompt E1 none) "p"
        [("temperature", PVal.n 1)]).payload "model" = some (.s E1.model_string) ∧
     assocGet (mkRequest E1 (effectiveSysPrompt E1 none) "p"
        [("temperature", PVal.n 1)]).payload "messages" =
       some (.msgs [⟨"system", effectiveSysPrompt E1 none⟩, ⟨"user", "p"⟩]) ∧
     ∀ k, k ≠ "model" → k ≠ "messages" →
       assocGet (mkRequest E1 (effectiveSysPrompt E1 none) "p"
          [("temperature", PVal.n 1)]).payload k =
         assocGet (dictMerge E1.default_params [("temperature", PVal.n 1)]) k) := by
  have hmem : mkRequest E1 (effectiveSysPrompt E1 none) "p"
      [("temperature", PVal.n 1)] ∈
      (generate E1 [] "p" none [("temperature", PVal.n 1)]
        [NetOutcome.response (okResp "4")]).1 := by
    show mkRequest E1 (effectiveSysPrompt E1 none) "p" [("temperature", PVal.n 1)] ∈
      [mkRequest E1 (effectiveSysPrompt E1 none) "p" [("temperature", PVal.n 1)]]
    exact List.mem_singleton_self _
  exact ⟨⟨rfl, hmem, by decide, rfl, rfl⟩,
    claim_C8 "root" "m" "sys" (some "k") none none none [] E1 [] "p" none
      [("temperature", PVal.n 1)] [NetOutcome.response (okResp "4")]
      (mkRequest E1 (effectiveSysPrompt E1 none) "p" [("temperature", PVal.n 1)])
      rfl hmem (by decide) rfl rfl⟩

/-- C9: calling `generate` with the system prompt explicitly set to the
empty string behaves identically to calling it with no override — the
empty string is falsy, so the instance default is used for the cache key
and the payload alike. -/
theorem claim_C9 (e : Engine) (cache : Cache) (prompt : String) (kwargs : PyDict)
    (script : List NetOutcome) :
    effectiveSysPrompt e (some "") = e.system_prompt ∧
    generate e cache prompt (some "") kwargs script =
      generate e cache prompt none kwargs script :=
  ⟨rfl, rfl⟩

/-- C10: the cache is written only on the successful-response path — a
run that raises leaves the cache exactly as it was, and so does a cache
hit. -/
theorem claim_C10 (e : Engine) (cache : Cache) (prompt : String)
    (system_prompt : Option String) (kwargs : PyDict) (script : List NetOutcome) :
    (∀ pe : PyErr,
      (generate e cache prompt system_prompt kwargs script).2.2 = .err pe →
      (generate e cache prompt system_prompt kwargs script).2.1 = cache) ∧
    (∀ t : RJson,
      assocGet cache (effectiveSysPrompt e system_prompt ++ prompt) = some t →
      (generate e cache prompt system_prompt kwargs script).2.1 = cache) := by
  constructor
  · intro pe h
    unfold generate at h ⊢
    exact generateGo_err_cache e _ prompt kwargs 4 cache script pe h
  · intro t h
    unfold generate
    rw [generateGo_hit e _ prompt kwargs 4 cache script t h]

/-- Witness for C10 on a failing run and on a cache hit. -/
theorem claim_C10_witness :
    ((generate E0 [] "p" none []
        (List.replicate 5 (NetOutcome.transportError "x"))).2.2 =
       .err (.retryError (.runtimeError "DeepSeek API Error: x")) ∧
     (generate E0 [] "p" none []
        (List.replicate 5 (NetOutcome.transportError "x"))).2.1 = []) ∧
    (assocGet hitCache (effectiveSysPrompt E0 none ++ "p") = some (RJson.str "4") ∧
     (generate E0 hitCache "p" none [] []).2.1 = hitCache) :=
  ⟨⟨rfl, (claim_C10 E0 [] "p" none []
      (List.replicate 5 (NetOutcome.transportError "x"))).1
      (.retryError (.runtimeError "DeepSeek API Error: x")) rfl⟩,
   ⟨rfl, (claim_C10 E0 hitCache "p" none [] []).2 (RJson.str "4") rfl⟩⟩

end TextGrad
